import Mathlib

/-!
Verification of the Picologs native backend (`src/src-tauri/src/lib.rs`).

Shallow embedding notes:
* Filesystem paths (`std::path::PathBuf`) are modelled as lists of
  components (`FsPath`): `PathBuf::join` appends one component and
  `PathBuf::parent` drops the last component (returning `none` on the
  empty path, as `Path::parent` returns `None` there).  Registry string
  values are modelled already parsed into components, i.e.
  `PathBuf::from` is the identity on this representation.
* The host OS is modelled as an explicit read-only state `OsState`:
  `openSubkey` models `RegKey::open_subkey` under `HKEY_LOCAL_MACHINE`
  (returning, on success, the key's string-value lookup, which models
  `get_value::<String, _>`), `envVar` models `std::env::var`, and
  `pathExists` models `Path::exists`.  `isWindows` models the
  `#[cfg(windows)]` compile-time gate.
* `Result<Vec<String>, String>` becomes `Except String (List FsPath)`.
* The `tauri_plugin_single_instance` callback is modelled as a function
  from the activation's argument list to the list of events it emits
  via `app.emit_to`.
-/

/-- A filesystem path, as its list of components. -/
structure FsPath where
  components : List String
deriving DecidableEq, Repr

/-- `PathBuf::join` with a single component. -/
def FsPath.join (p : FsPath) (c : String) : FsPath :=
  ⟨p.components ++ [c]⟩

/-- `Path::parent`: drop the last component; `None` on the empty path. -/
def FsPath.parent (p : FsPath) : Option FsPath :=
  match p.components with
  | [] => none
  | _ :: _ => some ⟨p.components.dropLast⟩

/-- The read-only host-OS state consulted by `find_star_citizen_logs`. -/
structure OsState where
  isWindows : Bool
  openSubkey : String → Option (String → Option FsPath)
  envVar : String → Option FsPath
  pathExists : FsPath → Bool

/-- Registry key of strategy 1 (`App Paths`, line 25 of the source). -/
def appPathsKey : String :=
  "SOFTWARE\\Wow6432Node\\Microsoft\\Windows\\CurrentVersion\\App Paths\\StarCitizen Launcher.exe"

/-- Registry key of strategy 2 (publisher key, line 45 of the source). -/
def cigKey : String :=
  "SOFTWARE\\Wow6432Node\\Cloud Imperium Games\\StarCitizen Launcher.exe"

/-- The environment tiers probed, in source order (lines 33, 50, 67). -/
def tiers : List String := ["LIVE", "PTU", "HOTFIX"]

/-- The tier loop shared by the three strategies (lines 33-38, 50-55,
67-72): for each tier in order, probe `<scPath>/<tier>/Game.log` and
collect the paths that exist. -/
def tierLogs (os : OsState) (scPath : FsPath) : List FsPath :=
  tiers.filterMap (fun env =>
    let log_path := (scPath.join env).join ("Game.log")
    if os.pathExists log_path then some log_path else none)

/-- Strategy 1 (lines 25-41): open the App Paths key, read its `Path`
value, take the parent of that path, join `StarCitizen`, and run the
tier loop.  Any failure yields the empty list. -/
def strategy1 (os : OsState) : List FsPath :=
  match os.openSubkey appPathsKey with
  | none => []
  | some get_value =>
    match get_value ("Path") with
    | none => []
    | some launcher_path =>
      match launcher_path.parent with
      | none => []
      | some parent => tierLogs os (parent.join ("StarCitizen"))

/-- Strategy 2 (lines 44-58): open the Cloud Imperium Games key, read
its `InstallLocation` value, join `StarCitizen` directly (no parent
step), and run the tier loop. -/
def strategy2 (os : OsState) : List FsPath :=
  match os.openSubkey cigKey with
  | none => []
  | some get_value =>
    match get_value ("InstallLocation") with
    | none => []
    | some install_path => tierLogs os (install_path.join ("StarCitizen"))

/-- The `%APPDATA%`-derived default directory of strategy 3
(lines 62-65). -/
def scAppdataDir (appdata : FsPath) : FsPath :=
  (appdata.join ("Roberts Space Industries")).join ("StarCitizen")

/-- Strategies 3 and 4 (lines 61-79): read `APPDATA`, run the tier loop
on the derived directory, and if that found nothing but the directory
itself exists, return the directory alone. -/
def strategy3 (os : OsState) : List FsPath :=
  match os.envVar ("APPDATA") with
  | none => []
  | some appdata =>
    let sc_appdata := scAppdataDir appdata
    let found := tierLogs os sc_appdata
    if found = [] ∧ os.pathExists sc_appdata then [sc_appdata] else found

/-- The collected `paths` vector after all strategies (lines 19-79):
each later strategy runs only when `paths` is still empty. -/
def discoverPaths (os : OsState) : List FsPath :=
  let p1 := strategy1 os
  let p2 := if p1 = [] then strategy2 os else []
  let p12 := p1 ++ p2
  let p3 := if p12 = [] then strategy3 os else []
  p12 ++ p3

/-- Error string of line 82. -/
def notFoundMsg : String := "Could not find Star Citizen installation or logs"

/-- Error string of line 90. -/
def unsupportedMsg : String := "Star Citizen is only available on Windows"

/-- `find_star_citizen_logs` (lines 12-92): on Windows, run the strategy
chain and fail with `notFoundMsg` when it collected nothing; on any
other platform fail immediately with `unsupportedMsg`. -/
def find_star_citizen_logs (os : OsState) : Except String (List FsPath) :=
  if os.isWindows then
    let paths := discoverPaths os
    if paths = [] then .error notFoundMsg else .ok paths
  else
    .error unsupportedMsg

/-- A failed registry read for a given key and value name: either
`open_subkey` fails or `get_value` on the opened key fails
(the `if let Ok(...)` guards at lines 25-26, 45-46). -/
def regReadFailed (os : OsState) (key val : String) : Prop :=
  os.openSubkey key = none ∨
    ∃ gv, os.openSubkey key = some gv ∧ gv val = none

/-- The candidate log paths strategy 1 probes when its registry value is
`v` (lines 29-34): rooted at the parent of `v`. -/
def strategy1Probes (v : FsPath) : List FsPath :=
  match v.parent with
  | none => []
  | some parent =>
    tiers.map (fun env => (((parent.join ("StarCitizen")).join env).join ("Game.log")))

/-- The candidate log paths strategy 2 probes when its registry value is
`v` (lines 47-51): rooted at `v` itself. -/
def strategy2Probes (v : FsPath) : List FsPath :=
  tiers.map (fun env => (((v.join ("StarCitizen")).join env).join ("Game.log")))

/-- An event emitted via `app.emit_to(window, event, payload)`. -/
structure EmittedEvent where
  window : String
  event : String
  payload : String
deriving DecidableEq, Repr

/-- The single-instance callback (lines 106-114): if the activation's
argument list has an element at index 1, emit one `deep-link-received`
event with that argument to the `main` window; otherwise do nothing. -/
def singleInstanceCallback (args : List String) : List EmittedEvent :=
  match args[1]? with
  | some url => [⟨"main", "deep-link-received", url⟩]
  | none => []

/-! Concrete OS states used to instantiate the theorems below. -/

/-- A sample `%APPDATA%` directory. -/
def appdataW : FsPath := ⟨["C:", "Users", "picologs", "AppData", "Roaming"]⟩

/-- A sample launcher path registered under the App Paths key. -/
def lpW : FsPath := ⟨["C:", "Program Files", "Roberts Space Industries", "RSI Launcher"]⟩

/-- The parent of `lpW`. -/
def parW : FsPath := ⟨["C:", "Program Files", "Roberts Space Industries"]⟩

/-- The LIVE log under the install derived from `lpW`. -/
def liveLogW : FsPath := ((parW.join ("StarCitizen")).join ("LIVE")).join ("Game.log")

/-- A registry key-value lookup exposing only a `Path` value. -/
def gvW1 : String → Option FsPath := fun v => if v = "Path" then some lpW else none

/-- Windows state where strategy 1 finds exactly `LIVE/Game.log` while
the `%APPDATA%` default directory also exists. -/
def osW1 : OsState :=
  ⟨true, fun _ => some gvW1, fun _ => some appdataW,
    fun p => decide (p = liveLogW) || decide (p = scAppdataDir appdataW)⟩

/-- A non-Windows state with a fully populated filesystem. -/
def osW2 : OsState :=
  ⟨false, fun _ => some (fun _ => some lpW), fun _ => some appdataW, fun _ => true⟩

/-- Windows state with no registry keys where only the default
directory exists (no tier logs). -/
def osW3 : OsState :=
  ⟨true, fun _ => none, fun _ => some appdataW,
    fun p => decide (p = scAppdataDir appdataW)⟩

/-- Windows state with no registry keys and an empty filesystem. -/
def osW4 : OsState :=
  ⟨true, fun _ => none, fun _ => some appdataW, fun _ => false⟩

/-- A registry key-value lookup whose every value read fails. -/
def gvNone : String → Option FsPath := fun _ => none

/-- Windows state where both registry keys open but every value read
fails, and the default directory holds a LIVE log. -/
def osW7 : OsState :=
  ⟨true, fun _ => some gvNone, fun _ => some appdataW,
    fun p => decide (p = ((scAppdataDir appdataW).join ("LIVE")).join ("Game.log"))⟩

/-- Windows state with no registry keys, no `APPDATA` variable, and a
filesystem where every path exists. -/
def osW9 : OsState :=
  ⟨true, fun _ => none, fun _ => none, fun _ => true⟩

/-- The diagnostic lines printed by `find_star_citizen_logs`: the
function's body (lines 12-92 of the source) contains no `println!` or
other logging call, so its diagnostic output is empty on every state,
in particular when a registry read fails. -/
def discoveryLogOutput (_os : OsState) : List String := []

/-- Windows state where the App Paths read succeeds with a valid
launcher path but its tier probes find nothing, the Cloud Imperium
Games value read fails, and the default directory holds a LIVE log. -/
def osW7b : OsState :=
  ⟨true, fun k => if k = cigKey then some gvNone else some gvW1,
    fun _ => some appdataW,
    fun p => decide (p = ((scAppdataDir appdataW).join ("LIVE")).join ("Game.log"))⟩

/-- A registry value used for both keys in the strategy comparison. -/
def vC8 : FsPath := ⟨["C:", "RSI"]⟩

/-- A path whose parent is `vC8`. -/
def vC8p : FsPath := ⟨["C:", "RSI", "launcher"]⟩

/-- A registry key-value lookup returning `vC8` for every value name. -/
def gvC8 : String → Option FsPath := fun _ => some vC8

/-- The LIVE log rooted at `vC8` itself (strategy 2's root). -/
def liveC8 : FsPath := ⟨["C:", "RSI", "StarCitizen", "LIVE", "Game.log"]⟩

/-- Windows state where both registry keys yield the same string value
`vC8` and only `liveC8` exists on disk. -/
def osC8 : OsState :=
  ⟨true, fun _ => some gvC8, fun _ => none, fun p => decide (p = liveC8)⟩

/-! Helper lemmas about the strategy chain. -/

/-- The tier loop collects, in tier order, exactly the candidate paths
that exist. -/
theorem tierLogs_eq_filter (os : OsState) (sc : FsPath) :
    tierLogs os sc =
      (tiers.map (fun env => (sc.join env).join ("Game.log"))).filter os.pathExists := by
  cases h1 : os.pathExists ((sc.join ("LIVE")).join ("Game.log")) <;>
  cases h2 : os.pathExists ((sc.join ("PTU")).join ("Game.log")) <;>
  cases h3 : os.pathExists ((sc.join ("HOTFIX")).join ("Game.log")) <;>
    simp [tierLogs, tiers, h1, h2, h3]

/-- The tier loop's result is an ordered sublist of the three candidate
paths. -/
theorem tierLogs_sublist (os : OsState) (sc : FsPath) :
    (tierLogs os sc).Sublist (tiers.map (fun env => (sc.join env).join ("Game.log"))) := by
  rw [tierLogs_eq_filter]
  exact List.filter_sublist _

/-- If strategy 1 found something, the chain returns it unchanged. -/
theorem find_eq_of_strategy1 (os : OsState) (hwin : os.isWindows = true)
    (h : strategy1 os ≠ []) :
    find_star_citizen_logs os = .ok (strategy1 os) := by
  simp [find_star_citizen_logs, discoverPaths, hwin, h]

/-- If strategy 1 found nothing but strategy 2 did, the chain returns
strategy 2's result. -/
theorem find_eq_of_strategy2 (os : OsState) (hwin : os.isWindows = true)
    (h1 : strategy1 os = []) (h2 : strategy2 os ≠ []) :
    find_star_citizen_logs os = .ok (strategy2 os) := by
  simp [find_star_citizen_logs, discoverPaths, hwin, h1, h2]

/-- If strategies 1 and 2 found nothing, the outcome is decided by
strategy 3 alone. -/
theorem find_eq_of_strategy3 (os : OsState) (hwin : os.isWindows = true)
    (h1 : strategy1 os = []) (h2 : strategy2 os = []) :
    find_star_citizen_logs os =
      if strategy3 os = [] then .error notFoundMsg else .ok (strategy3 os) := by
  have hd : discoverPaths os = strategy3 os := by
    simp [discoverPaths, h1, h2]
  simp only [find_star_citizen_logs, hwin, if_true, hd]

/-- The collected paths always come from a single strategy. -/
theorem discoverPaths_cases (os : OsState) :
    discoverPaths os = strategy1 os ∨ discoverPaths os = strategy2 os ∨
      discoverPaths os = strategy3 os := by
  by_cases h1 : strategy1 os = []
  · by_cases h2 : strategy2 os = []
    · right; right; simp [discoverPaths, h1, h2]
    · right; left; simp [discoverPaths, h1, h2]
  · left; simp [discoverPaths, h1]

/-- Strategy 1 either fails or runs the tier loop on some root. -/
theorem strategy1_shape (os : OsState) :
    strategy1 os = [] ∨ ∃ sc, strategy1 os = tierLogs os sc := by
  cases hk : os.openSubkey appPathsKey with
  | none => left; simp [strategy1, hk]
  | some gv =>
    cases hv : gv ("Path") with
    | none => left; simp [strategy1, hk, hv]
    | some lp =>
      cases hp : lp.parent with
      | none => left; simp [strategy1, hk, hv, hp]
      | some par =>
        right; exact ⟨par.join ("StarCitizen"), by simp [strategy1, hk, hv, hp]⟩

/-- Strategy 2 either fails or runs the tier loop on some root. -/
theorem strategy2_shape (os : OsState) :
    strategy2 os = [] ∨ ∃ sc, strategy2 os = tierLogs os sc := by
  cases hk : os.openSubkey cigKey with
  | none => left; simp [strategy2, hk]
  | some gv =>
    cases hv : gv ("InstallLocation") with
    | none => left; simp [strategy2, hk, hv]
    | some ip =>
      right; exact ⟨ip.join ("StarCitizen"), by simp [strategy2, hk, hv]⟩

/-- Strategy 3 fails, runs the tier loop, or returns one directory. -/
theorem strategy3_shape (os : OsState) :
    strategy3 os = [] ∨ (∃ sc, strategy3 os = tierLogs os sc) ∨
      ∃ d, strategy3 os = [d] := by
  cases hk : os.envVar ("APPDATA") with
  | none => left; simp [strategy3, hk]
  | some appdata =>
    by_cases hf : tierLogs os (scAppdataDir appdata) = [] ∧
        os.pathExists (scAppdataDir appdata) = true
    · right; right
      exact ⟨scAppdataDir appdata, by simp [strategy3, hk, hf.1, hf.2]⟩
    · right; left
      refine ⟨scAppdataDir appdata, ?_⟩
      simp only [strategy3, hk]
      rw [if_neg]
      simpa using hf

/-! Claim theorems. -/

/-- C1: if strategy 1's registry key resolves to a launcher path whose
derived StarCitizen directory contains an existing `LIVE/Game.log` and
no other tier file, `find_star_citizen_logs` returns `Ok` with only
that path, whatever the publisher key, the `APPDATA` variable and the
rest of the filesystem look like; and in general any strategy that
yields at least one log file short-circuits all later strategies. -/
theorem C1_strategy_order (os : OsState) (gv : String → Option FsPath)
    (lp par : FsPath)
    (hwin : os.isWindows = true)
    (hopen : os.openSubkey appPathsKey = some gv)
    (hval : gv ("Path") = some lp)
    (hpar : lp.parent = some par)
    (hlive : os.pathExists (((par.join ("StarCitizen")).join ("LIVE")).join ("Game.log")) = true)
    (hptu : os.pathExists (((par.join ("StarCitizen")).join ("PTU")).join ("Game.log")) = false)
    (hhot : os.pathExists (((par.join ("StarCitizen")).join ("HOTFIX")).join ("Game.log")) = false) :
    find_star_citizen_logs os =
      .ok [((par.join ("StarCitizen")).join ("LIVE")).join ("Game.log")] ∧
    (∀ os' : OsState, os'.isWindows = true → strategy1 os' ≠ [] →
      find_star_citizen_logs os' = .ok (strategy1 os')) ∧
    (∀ os' : OsState, os'.isWindows = true → strategy1 os' = [] →
      strategy2 os' ≠ [] →
      find_star_citizen_logs os' = .ok (strategy2 os')) := by
  have hs1 : strategy1 os =
      [((par.join ("StarCitizen")).join ("LIVE")).join ("Game.log")] := by
    simp [strategy1, hopen, hval, hpar, tierLogs, tiers, hlive, hptu, hhot]
  refine ⟨?_, fun os' hw h => find_eq_of_strategy1 os' hw h,
    fun os' hw h1 h2 => find_eq_of_strategy2 os' hw h1 h2⟩
  rw [find_eq_of_strategy1 os hwin (by rw [hs1]; simp), hs1]

/-- C1 witness: a concrete state instantiating the hypotheses. -/
theorem C1_strategy_order_witness :
    osW1.isWindows = true ∧
    osW1.pathExists (scAppdataDir appdataW) = true ∧
    find_star_citizen_logs osW1 = .ok [liveLogW] :=
  ⟨rfl, by decide,
    (C1_strategy_order osW1 gvW1 lpW parW rfl rfl rfl rfl
      (by decide) (by decide) (by decide)).1⟩

/-- C2: on any non-Windows state, discovery fails immediately with the
unsupported-platform string, whatever the rest of the state is. -/
theorem C2_platform_gate (os : OsState) (h : os.isWindows = false) :
    find_star_citizen_logs os = .error unsupportedMsg := by
  simp [find_star_citizen_logs, h]

/-- C2 witness: a non-Windows state with everything else populated. -/
theorem C2_platform_gate_witness :
    osW2.isWindows = false ∧
    find_star_citizen_logs osW2 = .error ("Star Citizen is only available on Windows") :=
  ⟨rfl, C2_platform_gate osW2 rfl⟩

/-- C3: if both registry strategies yield nothing, the `APPDATA`-derived
directory exists, and none of the three tier logs exists under it,
discovery returns exactly that directory as the only element. -/
theorem C3_directory_fallback (os : OsState) (appdata : FsPath)
    (hwin : os.isWindows = true)
    (h1 : strategy1 os = []) (h2 : strategy2 os = [])
    (henv : os.envVar ("APPDATA") = some appdata)
    (hlive : os.pathExists (((scAppdataDir appdata).join ("LIVE")).join ("Game.log")) = false)
    (hptu : os.pathExists (((scAppdataDir appdata).join ("PTU")).join ("Game.log")) = false)
    (hhot : os.pathExists (((scAppdataDir appdata).join ("HOTFIX")).join ("Game.log")) = false)
    (hdir : os.pathExists (scAppdataDir appdata) = true) :
    find_star_citizen_logs os = .ok [scAppdataDir appdata] := by
  have hs3 : strategy3 os = [scAppdataDir appdata] := by
    simp [strategy3, henv, tierLogs, tiers, hlive, hptu, hhot, hdir]
  rw [find_eq_of_strategy3 os hwin h1 h2, hs3]
  simp

/-- C3 witness: a concrete state instantiating the hypotheses. -/
theorem C3_directory_fallback_witness :
    strategy1 osW3 = [] ∧
    osW3.pathExists (scAppdataDir appdataW) = true ∧
    find_star_citizen_logs osW3 = .ok [scAppdataDir appdataW] :=
  ⟨rfl, by decide,
    C3_directory_fallback osW3 appdataW rfl rfl rfl rfl
      (by decide) (by decide) (by decide) (by decide)⟩

/-- C4: if no registry key resolves, no tier log exists, and the
default directory does not exist, discovery fails with the
human-readable not-found string; and in general on Windows the result
is that error exactly when the collected path sequence is empty. -/
theorem C4_not_found (os : OsState) (appdata : FsPath)
    (hwin : os.isWindows = true)
    (h1 : os.openSubkey appPathsKey = none)
    (h2 : os.openSubkey cigKey = none)
    (henv : os.envVar ("APPDATA") = some appdata)
    (hlive : os.pathExists (((scAppdataDir appdata).join ("LIVE")).join ("Game.log")) = false)
    (hptu : os.pathExists (((scAppdataDir appdata).join ("PTU")).join ("Game.log")) = false)
    (hhot : os.pathExists (((scAppdataDir appdata).join ("HOTFIX")).join ("Game.log")) = false)
    (hdir : os.pathExists (scAppdataDir appdata) = false) :
    find_star_citizen_logs os = .error notFoundMsg ∧
    (∀ os' : OsState, os'.isWindows = true →
      (find_star_citizen_logs os' = .error notFoundMsg ↔ discoverPaths os' = [])) := by
  constructor
  · have hs1 : strategy1 os = [] := by simp [strategy1, h1]
    have hs2 : strategy2 os = [] := by simp [strategy2, h2]
    have hs3 : strategy3 os = [] := by
      simp [strategy3, henv, tierLogs, tiers, hlive, hptu, hhot, hdir]
    rw [find_eq_of_strategy3 os hwin hs1 hs2, hs3]
    simp
  · intro os' hw
    constructor
    · intro h
      by_contra hne
      simp [find_star_citizen_logs, hw, hne] at h
    · intro h
      simp [find_star_citizen_logs, hw, h]

/-- C4 witness: a concrete state instantiating the hypotheses. -/
theorem C4_not_found_witness :
    osW4.openSubkey appPathsKey = none ∧
    osW4.pathExists (scAppdataDir appdataW) = false ∧
    find_star_citizen_logs osW4 = .error ("Could not find Star Citizen installation or logs") :=
  ⟨rfl, rfl,
    (C4_not_found osW4 appdataW rfl rfl rfl rfl rfl rfl rfl rfl).1⟩

/-- C5: whenever the activation's argument list has an element at
index 1, the single-instance callback emits exactly one
`deep-link-received` event to the `main` window whose payload is that
argument, unchanged. -/
theorem C5_deep_link_forward (args : List String) (url : String)
    (h : args[1]? = some url) :
    singleInstanceCallback args = [⟨"main", "deep-link-received", url⟩] := by
  simp [singleInstanceCallback, h]

/-- C5 witness: a secondary launch carrying a deep link. -/
theorem C5_deep_link_forward_witness :
    (["picologs.exe", "https://deeplink/x"] : List String)[1]? =
      some ("https://deeplink/x") ∧
    singleInstanceCallback ["picologs.exe", "https://deeplink/x"] =
      [⟨"main", "deep-link-received", "https://deeplink/x"⟩] :=
  ⟨rfl, C5_deep_link_forward ["picologs.exe", "https://deeplink/x"] ("https://deeplink/x") rfl⟩

/-- C6: an activation with fewer than two arguments emits no event at
all. -/
theorem C6_no_second_arg_noop (args : List String) (h : args.length < 2) :
    singleInstanceCallback args = [] := by
  have hn : args[1]? = none := by
    rw [List.getElem?_eq_none]
    omega
  simp [singleInstanceCallback, hn]

/-- C6 witness: a plain re-launch with only the executable path. -/
theorem C6_no_second_arg_noop_witness :
    (["picologs.exe"] : List String).length < 2 ∧
    singleInstanceCallback ["picologs.exe"] = [] :=
  ⟨by decide, C6_no_second_arg_noop ["picologs.exe"] (by decide)⟩

/-- C7 counterexample: at a concrete state where the App Paths value
read fails, discovery still succeeds through strategy 3 yet its
diagnostic output is empty — the failed registry read is not logged,
refuting the claim's `is logged` clause. -/
theorem C7_registry_failure_not_logged :
    regReadFailed osW7 appPathsKey ("Path") ∧
    discoveryLogOutput osW7 = [] ∧
    find_star_citizen_logs osW7 =
      .ok [((scAppdataDir appdataW).join ("LIVE")).join ("Game.log")] :=
  ⟨Or.inr ⟨gvNone, rfl, rfl⟩, rfl, by rfl⟩

/-- C7 (amended): a failed registry read (failed subkey open or failed
value read) never produces an error by itself: silently — nothing is
logged — the failing strategy yields nothing and the rest of the chain
proceeds as if that strategy had found no logs, each case stated
independently of the other registry read. -/
theorem C7_registry_failure_nonfatal (os : OsState)
    (hwin : os.isWindows = true) :
    (regReadFailed os appPathsKey ("Path") →
      strategy1 os = [] ∧
      find_star_citizen_logs os =
        (let p2 := strategy2 os
         let p3 := if p2 = [] then strategy3 os else []
         if p2 ++ p3 = [] then .error notFoundMsg else .ok (p2 ++ p3))) ∧
    (regReadFailed os cigKey ("InstallLocation") →
      strategy2 os = [] ∧
      find_star_citizen_logs os =
        (let p1 := strategy1 os
         let p3 := if p1 = [] then strategy3 os else []
         if p1 ++ p3 = [] then .error notFoundMsg else .ok (p1 ++ p3))) ∧
    discoveryLogOutput os = [] := by
  refine ⟨?_, ?_, rfl⟩
  · intro hf1
    have hs1 : strategy1 os = [] := by
      rcases hf1 with h | ⟨gv, hg, hv⟩
      · simp [strategy1, h]
      · simp [strategy1, hg, hv]
    refine ⟨hs1, ?_⟩
    by_cases h2 : strategy2 os = []
    · by_cases h3 : strategy3 os = [] <;>
        simp [find_star_citizen_logs, discoverPaths, hs1, hwin, h2, h3]
    · simp [find_star_citizen_logs, discoverPaths, hs1, hwin, h2]
  · intro hf2
    have hs2 : strategy2 os = [] := by
      rcases hf2 with h | ⟨gv, hg, hv⟩
      · simp [strategy2, h]
      · simp [strategy2, hg, hv]
    refine ⟨hs2, ?_⟩
    by_cases h1 : strategy1 os = []
    · by_cases h3 : strategy3 os = [] <;>
        simp [find_star_citizen_logs, discoverPaths, hwin, hs2, h1, h3]
    · simp [find_star_citizen_logs, discoverPaths, hwin, hs2, h1]

/-- C7 witness: the App Paths read succeeds but finds no logs, only the
Cloud Imperium Games value read fails, and the chain still falls
through to the `APPDATA` strategy and succeeds. -/
theorem C7_registry_failure_nonfatal_witness :
    regReadFailed osW7b cigKey ("InstallLocation") ∧
    osW7b.openSubkey appPathsKey = some gvW1 ∧
    strategy2 osW7b = [] ∧
    find_star_citizen_logs osW7b =
      .ok [((scAppdataDir appdataW).join ("LIVE")).join ("Game.log")] := by
  have hf2 : regReadFailed osW7b cigKey ("InstallLocation") :=
    Or.inr ⟨gvNone, rfl, rfl⟩
  have h := ((C7_registry_failure_nonfatal osW7b rfl).2.1) hf2
  refine ⟨hf2, rfl, h.1, ?_⟩
  rw [h.2]
  have h1 : strategy1 osW7b = [] := by rfl
  have h3 : strategy3 osW7b =
      [((scAppdataDir appdataW).join ("LIVE")).join ("Game.log")] := by decide
  simp [h1, h3]

/-- C8 counterexample: for the same registry string value `vC8`,
strategy 1 probes paths rooted at the parent of the value while
strategy 2 probes paths rooted at the value itself, so the probed
candidate sets differ; behaviourally, with both keys returning `vC8`
and only `vC8/StarCitizen/LIVE/Game.log` on disk, strategy 1 finds
nothing while strategy 2 finds that log. -/
theorem C8_probe_sets_differ :
    strategy1Probes vC8 ≠ strategy2Probes vC8 ∧
    osC8.openSubkey appPathsKey = some gvC8 ∧
    osC8.openSubkey cigKey = some gvC8 ∧
    gvC8 ("Path") = some vC8 ∧
    gvC8 ("InstallLocation") = some vC8 ∧
    strategy1 osC8 = [] ∧
    strategy2 osC8 = [liveC8] :=
  ⟨by decide, rfl, rfl, rfl, rfl, by decide, by decide⟩

/-- C8 (amended): strategy 2 applies the same child-directory-plus-tier
check as strategy 1, but rooted at its registry value itself, whereas
strategy 1 roots the check at the parent of its value: whenever
`parent v1 = some v2`, strategy 1's probed candidates for `v1` equal
strategy 2's probed candidates for `v2`, and each strategy returns
exactly the probed candidates that exist. -/
theorem C8_same_check_modulo_parent (v1 v2 : FsPath)
    (hp : v1.parent = some v2) :
    strategy1Probes v1 = strategy2Probes v2 ∧
    (∀ (os : OsState) (gv : String → Option FsPath),
      os.openSubkey appPathsKey = some gv → gv ("Path") = some v1 →
      strategy1 os = (strategy1Probes v1).filter os.pathExists) ∧
    (∀ (os : OsState) (gv : String → Option FsPath),
      os.openSubkey cigKey = some gv → gv ("InstallLocation") = some v2 →
      strategy2 os = (strategy2Probes v2).filter os.pathExists) := by
  refine ⟨by simp [strategy1Probes, strategy2Probes, hp], ?_, ?_⟩
  · intro os gv hg hv
    simp only [strategy1, hg, hv, hp, strategy1Probes]
    rw [tierLogs_eq_filter]
  · intro os gv hg hv
    simp only [strategy2, hg, hv, strategy2Probes]
    rw [tierLogs_eq_filter]

/-- C8 witness: the amended statement at a concrete value pair. -/
theorem C8_same_check_modulo_parent_witness :
    vC8p.parent = some vC8 ∧
    strategy1Probes vC8p = strategy2Probes vC8 :=
  ⟨by decide, (C8_same_check_modulo_parent vC8p vC8 (by decide)).1⟩

/-- C9: on Windows, if both registry strategies yield nothing and the
`APPDATA` variable is unset, discovery returns the not-found error no
matter what exists on disk. -/
theorem C9_no_appdata_skips_fallback (os : OsState)
    (hwin : os.isWindows = true)
    (h1 : strategy1 os = []) (h2 : strategy2 os = [])
    (henv : os.envVar ("APPDATA") = none) :
    find_star_citizen_logs os = .error notFoundMsg := by
  have hs3 : strategy3 os = [] := by simp [strategy3, henv]
  rw [find_eq_of_strategy3 os hwin h1 h2, hs3]
  simp

/-- C9 witness: a state where every path exists on disk yet `APPDATA`
is unset. -/
theorem C9_no_appdata_skips_fallback_witness :
    osW9.envVar ("APPDATA") = none ∧
    osW9.pathExists (scAppdataDir appdataW) = true ∧
    find_star_citizen_logs osW9 = .error notFoundMsg :=
  ⟨rfl, rfl, C9_no_appdata_skips_fallback osW9 rfl rfl rfl rfl⟩

/-- C10: every `Ok` result is nonempty with at most three elements, and
is either an ordered sublist of the three tier candidates of a single
root (hence in LIVE, PTU, HOTFIX order) or the single-element
directory fallback. -/
theorem C10_result_shape (os : OsState) (ps : List FsPath)
    (h : find_star_citizen_logs os = .ok ps) :
    ps ≠ [] ∧ ps.length ≤ 3 ∧
    (∃ sc : FsPath,
      ps.Sublist (tiers.map (fun env => (sc.join env).join ("Game.log"))) ∨
        ps = [sc]) := by
  cases hw : os.isWindows with
  | false => simp [find_star_citizen_logs, hw] at h
  | true =>
    rw [find_star_citizen_logs] at h
    simp only [hw, if_true] at h
    by_cases hd : discoverPaths os = []
    · simp [hd] at h
    · simp only [hd, if_neg, if_false] at h
      have hps : ps = discoverPaths os := by
        cases h
        rfl
      subst hps
      have hlen3 : ∀ sc : FsPath,
          (tiers.map (fun env => (sc.join env).join ("Game.log"))).length = 3 := by
        intro sc
        simp [tiers]
      refine ⟨hd, ?_⟩
      rcases discoverPaths_cases os with hc | hc | hc
      · rcases strategy1_shape os with he | ⟨sc, hsc⟩
        · exact absurd (hc.trans he) hd
        · rw [hc, hsc]
          refine ⟨?_, sc, Or.inl (tierLogs_sublist os sc)⟩
          calc (tierLogs os sc).length
              ≤ (tiers.map (fun env => (sc.join env).join ("Game.log"))).length :=
                (tierLogs_sublist os sc).length_le
            _ = 3 := hlen3 sc
      · rcases strategy2_shape os with he | ⟨sc, hsc⟩
        · exact absurd (hc.trans he) hd
        · rw [hc, hsc]
          refine ⟨?_, sc, Or.inl (tierLogs_sublist os sc)⟩
          calc (tierLogs os sc).length
              ≤ (tiers.map (fun env => (sc.join env).join ("Game.log"))).length :=
                (tierLogs_sublist os sc).length_le
            _ = 3 := hlen3 sc
      · rcases strategy3_shape os with he | ⟨sc, hsc⟩ | ⟨d, hd1⟩
        · exact absurd (hc.trans he) hd
        · rw [hc, hsc]
          refine ⟨?_, sc, Or.inl (tierLogs_sublist os sc)⟩
          calc (tierLogs os sc).length
              ≤ (tiers.map (fun env => (sc.join env).join ("Game.log"))).length :=
                (tierLogs_sublist os sc).length_le
            _ = 3 := hlen3 sc
        · rw [hc, hd1]
          exact ⟨by simp, d, Or.inr rfl⟩

/-- C10 witness: the strategy-1 result of `osW1` has the claimed
shape. -/
theorem C10_result_shape_witness :
    find_star_citizen_logs osW1 = .ok [liveLogW] ∧
    ([liveLogW] : List FsPath).length ≤ 3 :=
  have hfind : find_star_citizen_logs osW1 = .ok [liveLogW] := by rfl
  ⟨hfind, (C10_result_shape osW1 [liveLogW] hfind).2.1⟩
